import Mathlib

/-!
Verification of the task-record engine in `src/tasks.py`.

The Python module operates on task dictionaries.  We embed a task as a
structure whose optional fields are `Option`-valued (a `none` field models the
key being absent from the dictionary).  Dates are embedded as year/month/day
triples with CPython's `datetime.date` validity rules (`MINYEAR = 1`,
`MAXYEAR = 9999`); `datetime.strptime(s, "%Y-%m-%d")` is embedded by
`parseDate` and `date.strftime("%Y-%m-%d")` by `fmtDate`.
-/

set_option autoImplicit false

namespace TaskEngine

/-- A calendar date as CPython's `datetime.date` stores it. -/
structure PyDate where
  year : Nat
  month : Nat
  day : Nat
deriving DecidableEq

/-- Gregorian leap-year rule used by `datetime`. -/
def isLeapYear (y : Nat) : Bool :=
  y % 4 == 0 && (y % 100 != 0 || y % 400 == 0)

/-- Length of a month, as `datetime` validates day-of-month. -/
def daysInMonth (y m : Nat) : Nat :=
  if m == 2 then (if isLeapYear y then 29 else 28)
  else if m == 4 || m == 6 || m == 9 || m == 11 then 30
  else 31

/-- Constructor `datetime.date(y, m, d)` succeeds exactly under these bounds
(`MINYEAR = 1`, `MAXYEAR = 9999`). -/
def validDate (y m d : Nat) : Bool :=
  1 ≤ y && y ≤ 9999 && 1 ≤ m && m ≤ 12 && 1 ≤ d && d ≤ daysInMonth y m

/-- Split a character list at every dash, like `str.split("-")`. -/
def splitOnDash : List Char → List (List Char)
  | [] => [[]]
  | c :: cs =>
    if c = '-' then [] :: splitOnDash cs
    else
      match splitOnDash cs with
      | [] => [[c]]
      | g :: gs => (c :: g) :: gs

/-- ASCII digit test. -/
def isDigitChar (c : Char) : Bool :=
  '0' ≤ c && c ≤ '9'

/-- All characters are ASCII digits. -/
def allDigits (cs : List Char) : Bool :=
  cs.all isDigitChar

/-- Numeric value of a digit string. -/
def digitsVal (cs : List Char) : Nat :=
  cs.foldl (fun acc c => acc * 10 + (c.toNat - 48)) 0

/-- The `%Y` field of CPython's `_strptime`: its regex is four digit
characters, exactly (`\d\d\d\d`) — neither fewer nor more. -/
def parseYearField (cs : List Char) : Option Nat :=
  if cs.length = 4 && allDigits cs then some (digitsVal cs) else none

/-- The `%m` field of CPython's `_strptime`: one digit 1-9, or two digits
with value 01-12 (regex alternation `1[0-2]`, `0[1-9]`, `[1-9]`); no space
padding. -/
def parseMonthField : List Char → Option Nat
  | [c] => if '1' ≤ c && c ≤ '9' then some (c.toNat - 48) else none
  | [c1, c2] =>
    if isDigitChar c1 && isDigitChar c2 then
      if 1 ≤ (c1.toNat - 48) * 10 + (c2.toNat - 48) &&
          (c1.toNat - 48) * 10 + (c2.toNat - 48) ≤ 12 then
        some ((c1.toNat - 48) * 10 + (c2.toNat - 48))
      else none
    else none
  | _ => none

/-- The `%d` field of CPython's `_strptime`: one digit 1-9, two digits
with value 01-31, or a space followed by a digit 1-9 (regex alternation
`3[01]`, `[12]\d`, `0[1-9]`, `[1-9]`, ` [1-9]`). -/
def parseDayField : List Char → Option Nat
  | [c] => if '1' ≤ c && c ≤ '9' then some (c.toNat - 48) else none
  | [c1, c2] =>
    if c1 = ' ' then
      if '1' ≤ c2 && c2 ≤ '9' then some (c2.toNat - 48) else none
    else if isDigitChar c1 && isDigitChar c2 then
      if 1 ≤ (c1.toNat - 48) * 10 + (c2.toNat - 48) &&
          (c1.toNat - 48) * 10 + (c2.toNat - 48) ≤ 31 then
        some ((c1.toNat - 48) * 10 + (c2.toNat - 48))
      else none
    else none
  | _ => none

/-- Parsing `datetime.strptime(s, "%Y-%m-%d").date()`.  The `%Y`, `%m` and
`%d` fields match none of the literal dashes, so the string must decompose
as exactly three dash-separated fields, each matching its directive's
regex with the whole string consumed; the resulting triple must then pass
the `datetime` constructor's range check.  Any failure raises
`ValueError`, embedded as `none`. -/
def parseDate (s : String) : Option PyDate :=
  match splitOnDash s.toList with
  | [ys, ms, ds] =>
    match parseYearField ys, parseMonthField ms, parseDayField ds with
    | some y, some m, some d => if validDate y m d then some ⟨y, m, d⟩ else none
    | _, _, _ => none
  | _ => none

/-- Decimal rendering of `n`, zero-padded on the left to width `w`. -/
def padNum (w n : Nat) : String :=
  String.mk (List.replicate (w - (toString n).length) '0') ++ toString n

/-- Formatting `date.strftime("%Y-%m-%d")`: the platform's `strftime`
emits `%Y` without padding (year 999 prints as "999"), while `%m` and `%d`
are zero-padded to two digits. -/
def fmtDate (dt : PyDate) : String :=
  toString dt.year ++ "-" ++ padNum 2 dt.month ++ "-" ++ padNum 2 dt.day

/-- Successor day in the Gregorian calendar. -/
def nextDay (dt : PyDate) : PyDate :=
  if dt.day < daysInMonth dt.year dt.month then ⟨dt.year, dt.month, dt.day + 1⟩
  else if dt.month < 12 then ⟨dt.year, dt.month + 1, 1⟩
  else ⟨dt.year + 1, 1, 1⟩

/-- The underlying day arithmetic of `date + timedelta`, without the range
check (iterated calendar successor). -/
def addDays (dt : PyDate) : Nat → PyDate
  | 0 => dt
  | n + 1 => nextDay (addDays dt n)

/-- The outcome of a Python expression that may raise an exception the
surrounding code does not catch: either a value, or a propagating
`OverflowError`. -/
inductive PyResult (α : Type) where
  | ok (val : α)
  | overflowError
deriving DecidableEq

/-- Addition `date + timedelta(days = n)`: `date.__add__` range-checks the
resulting ordinal and raises `OverflowError` — which `except (ValueError,
TypeError)` does NOT catch — when the result falls past `MAXYEAR` 9999. -/
def addTimedelta (dt : PyDate) (n : Nat) : PyResult PyDate :=
  if (addDays dt n).year ≤ 9999 then .ok (addDays dt n) else .overflowError

/-- Strict comparison of dates, as `date.__lt__` compares. -/
def dateLt (a b : PyDate) : Bool :=
  a.year < b.year ||
    (a.year == b.year &&
      (a.month < b.month || (a.month == b.month && a.day < b.day)))

/-- A subtask dictionary: `id`, `title`, `completed` keys, each possibly
absent. -/
structure Subtask where
  id : Option Int
  title : Option String
  completed : Option Bool
deriving DecidableEq

/-- A task dictionary.  `id` is always present (every constructor in the
module assigns one and `generate_unique_id` reads it unconditionally);
the remaining keys may be absent, modelled by `none`. -/
structure Task where
  id : Int
  title : Option String
  description : Option String
  priority : Option String
  category : Option String
  due_date : Option String
  completed : Option Bool
  created_at : Option String
  tags : Option (List String)
  subtasks : Option (List Subtask)
  recurrence : Option String
deriving DecidableEq

/-- A task with only an `id`, used to build concrete examples. -/
def baseTask : Task :=
  { id := 1, title := none, description := none, priority := none,
    category := none, due_date := none, completed := none, created_at := none,
    tags := none, subtasks := none, recurrence := none }

/-- What `json.load` produced for a tasks file: either a JSON array of task
records, or some other JSON value (number, string, object, ...), described
abstractly by a string. -/
inductive JDoc where
  | tasksList (ts : List Task)
  | otherJson (desc : String)
deriving DecidableEq

/-- The state of the backing document seen by `load_tasks`: the file may be
missing (`open` raises `FileNotFoundError`), hold text that is not JSON
(`json.load` raises `JSONDecodeError`), or hold a JSON value. -/
inductive TasksFile where
  | missing
  | malformed (raw : String)
  | parsed (v : JDoc)
deriving DecidableEq

/-- Function `load_tasks` (tasks.py lines 8-26): returns the parsed JSON value,
`[]` when the file is missing, and `[]` (after printing a warning) when the
content is not valid JSON.  No check that the parsed value is a list. -/
def load_tasks : TasksFile → JDoc
  | .missing => .tasksList []
  | .malformed _ => .tasksList []
  | .parsed v => v

/-- Function `generate_unique_id` (lines 39-51): `1` on an empty list, otherwise the
maximum `id` plus one. -/
def generate_unique_id : List Task → Int
  | [] => 1
  | t :: ts => ts.foldl (fun acc x => max acc x.id) t.id + 1

/-- Function `filter_tasks_by_priority` (lines 53-64):
`[task for task in tasks if task.get("priority") == priority]`. -/
def filter_tasks_by_priority (tasks : List Task) (priority : String) : List Task :=
  tasks.filter fun task => task.priority == some priority

/-- The loop body of `get_overdue_tasks` as a predicate: skip completed
tasks (`task.get("completed", False)`), skip tasks without `due_date`, skip
tasks whose `due_date` fails to parse, keep the rest when the due date is
strictly before today. -/
def is_overdue (today : PyDate) (task : Task) : Bool :=
  if task.completed.getD false then false
  else
    match task.due_date with
    | none => false
    | some s =>
      match parseDate s with
      | none => false
      | some d => dateLt d today

/-- Function `get_overdue_tasks` (lines 110-140).  The source reads the ambient
`datetime.now().date()`; the model passes that value as the explicit
parameter `today` (the spec's `referenceDate`). -/
def get_overdue_tasks (tasks_list : List Task) (today : PyDate) : List Task :=
  tasks_list.filter (is_overdue today)

/-- The tag loop of `add_tags_to_task` (lines 156-158): append each tag not
already present, checking membership against the growing list. -/
def addTagLoop (cur : List String) : List String → List String
  | [] => cur
  | tag :: rest =>
    if tag ∈ cur then addTagLoop cur rest
    else addTagLoop (cur ++ [tag]) rest

/-- Function `add_tags_to_task` (lines 142-160): initialize `tags` to `[]` when
absent, then append the new tags. -/
def add_tags_to_task (task : Task) (tags : List String) : Task :=
  { task with tags := some (addTagLoop (task.tags.getD []) tags) }

/-- The list `valid_patterns` (line 232). -/
def valid_patterns : List String := ["daily", "weekly", "monthly", "yearly"]

/-- Function `get_next_occurrence_date` (lines 237-269).  Returns `None`
when `recurrence` or `due_date` is absent; otherwise parses the due date
(a `ValueError` is caught, giving `None`) and dispatches on the pattern.
The daily and weekly branches add a `timedelta`, whose `OverflowError`
past 9999-12-31 is NOT caught and propagates to the caller.  The monthly
and yearly branches call `date.replace`, which raises a caught
`ValueError` when the requested triple is not a valid date (including a
year above `MAXYEAR = 9999`); an unknown pattern gives `None`. -/
def get_next_occurrence_date (task : Task) : PyResult (Option String) :=
  match task.recurrence, task.due_date with
  | some r, some ds =>
    match parseDate ds with
    | none => .ok none
    | some cur =>
      if r == "daily" then
        match addTimedelta cur 1 with
        | .ok nd => .ok (some (fmtDate nd))
        | .overflowError => .overflowError
      else if r == "weekly" then
        match addTimedelta cur 7 with
        | .ok nd => .ok (some (fmtDate nd))
        | .overflowError => .overflowError
      else if r == "monthly" then
        let m := cur.month % 12 + 1
        let y := cur.year + (if cur.month == 12 then 1 else 0)
        let d := min cur.day 28
        if validDate y m d then .ok (some (fmtDate ⟨y, m, d⟩)) else .ok none
      else if r == "yearly" then
        if validDate (cur.year + 1) cur.month cur.day then
          .ok (some (fmtDate ⟨cur.year + 1, cur.month, cur.day⟩))
        else .ok none
      else .ok none
  | _, _ => .ok none

/-- Resetting one subtask's completion: `subtask["completed"] = False`. -/
def resetSubtask (st : Subtask) : Subtask :=
  { st with completed := some false }

/-- The value `generate_next_occurrence` (lines 271-298) returns: `None`
when `recurrence` or `due_date` is absent or `get_next_occurrence_date`
gives `None` (an `OverflowError` raised inside it keeps propagating);
otherwise a copy of the task with a fresh id generated from the
single-element list `[task]`, the new due date, `completed = False`, and
every subtask's `completed` set to `False`. -/
def generate_next_occurrence (task : Task) : PyResult (Option Task) :=
  match task.recurrence, task.due_date with
  | some _, some _ =>
    match get_next_occurrence_date task with
    | .overflowError => .overflowError
    | .ok none => .ok none
    | .ok (some nd) =>
      .ok (some { task with
        id := generate_unique_id [task],
        due_date := some nd,
        completed := some false,
        subtasks := task.subtasks.map (List.map resetSubtask) })
  | _, _ => .ok none

/-- The state of the INPUT dictionary after `generate_next_occurrence`
finishes.  `next_task = task.copy()` is a shallow copy, so the subtask
dictionaries in `next_task["subtasks"]` are the very objects of
`task["subtasks"]`; the loop `subtask["completed"] = False` therefore also
mutates the original task's subtasks whenever the function reaches it
(i.e. whenever a next date was produced; on `None` or on an exception the
function exits before the loop).  Reassigning the `id`, `due_date` and
`completed` keys on `next_task` affects only the copy. -/
def generate_next_occurrence_post (task : Task) : Task :=
  match task.recurrence, task.due_date with
  | some _, some _ =>
    match get_next_occurrence_date task with
    | .ok (some _) => { task with subtasks := task.subtasks.map (List.map resetSubtask) }
    | _ => task
  | _, _ => task

/-- The tags the loop of `add_tags_to_task` appends, described the way the
spec words it: the input tags not already present, kept in first-seen
order.  Used to compare the loop against the spec's description. -/
def firstSeen (seen : List String) : List String → List String
  | [] => []
  | tag :: rest =>
    if tag ∈ seen then firstSeen seen rest
    else tag :: firstSeen (seen ++ [tag]) rest

theorem mem_addTagLoop_of_mem (x : String) (tags : List String) :
    ∀ cur : List String, x ∈ cur → x ∈ addTagLoop cur tags := by
  induction tags with
  | nil => exact fun _ h => h
  | cons t rest ih =>
    intro cur h
    by_cases hc : t ∈ cur
    · simpa only [addTagLoop, if_pos hc] using ih cur h
    · simpa only [addTagLoop, if_neg hc] using ih (cur ++ [t]) (List.mem_append_left _ h)

theorem mem_addTagLoop_input (tags : List String) :
    ∀ (cur : List String) (tag : String), tag ∈ tags → tag ∈ addTagLoop cur tags := by
  induction tags with
  | nil => intro _ _ h; cases h
  | cons t rest ih =>
    intro cur tag h
    by_cases hc : t ∈ cur
    · simp only [addTagLoop, if_pos hc]
      rcases List.mem_cons.mp h with rfl | hm
      · exact mem_addTagLoop_of_mem tag rest cur hc
      · exact ih cur tag hm
    · simp only [addTagLoop, if_neg hc]
      rcases List.mem_cons.mp h with rfl | hm
      · exact mem_addTagLoop_of_mem tag rest _ (List.mem_append_right _ (List.mem_singleton.mpr rfl))
      · exact ih _ tag hm

theorem nodup_addTagLoop (tags : List String) :
    ∀ cur : List String, cur.Nodup → (addTagLoop cur tags).Nodup := by
  induction tags with
  | nil => exact fun _ h => h
  | cons t rest ih =>
    intro cur h
    by_cases hc : t ∈ cur
    · simpa only [addTagLoop, if_pos hc] using ih cur h
    · simp only [addTagLoop, if_neg hc]
      refine ih _ (List.nodup_append.mpr ⟨h, List.nodup_singleton t, ?_⟩)
      intro a ha hb
      rw [List.mem_singleton] at hb
      exact hc (hb ▸ ha)

theorem addTagLoop_eq_append (tags : List String) :
    ∀ cur : List String, addTagLoop cur tags = cur ++ firstSeen cur tags := by
  induction tags with
  | nil => intro cur; simp [addTagLoop, firstSeen]
  | cons t rest ih =>
    intro cur
    by_cases hc : t ∈ cur
    · simpa only [addTagLoop, firstSeen, if_pos hc] using ih cur
    · simp only [addTagLoop, firstSeen, if_neg hc]
      rw [ih (cur ++ [t])]
      simp

theorem addTagLoop_absorbed (tags : List String) :
    ∀ cur : List String, (∀ t ∈ tags, t ∈ cur) → addTagLoop cur tags = cur := by
  induction tags with
  | nil => intro _ _; rfl
  | cons t rest ih =>
    intro cur h
    have hc : t ∈ cur := h t (List.mem_cons_self t rest)
    simp only [addTagLoop, if_pos hc]
    exact ih cur fun x hx => h x (List.mem_cons_of_mem t hx)

/-- A task whose pre-existing `tags` list already holds a duplicate. -/
def dupTagsTask : Task := { baseTask with tags := some ["a", "a"] }

/-- C7 (counterexample): the claim says the task returned by
`add_tags_to_task` has no duplicate tags for every task and input list, but
a task whose pre-existing `tags` list already holds a duplicate keeps it:
the result of adding `["b"]` to tags `["a", "a"]` is `["a", "a", "b"]`. -/
theorem add_tags_duplicate_cex :
    (add_tags_to_task dupTagsTask ["b"]).tags = some ["a", "a", "b"] ∧
    ¬ ((add_tags_to_task dupTagsTask ["b"]).tags.getD []).Nodup :=
  ⟨by decide, by decide⟩

/-- C7 (amended): for every task and input tag list, the returned task's
`tags` is the pre-existing list (initialized to empty when absent) followed
by the input tags not already present, in first-seen order; every input tag
is present afterwards, and, provided the pre-existing tags hold no
duplicate, the result holds no duplicate either. -/
theorem add_tags_spec (task : Task) (tags : List String) :
    (∀ tag ∈ tags, tag ∈ ((add_tags_to_task task tags).tags.getD [])) ∧
    ((task.tags.getD []).Nodup → ((add_tags_to_task task tags).tags.getD []).Nodup) ∧
    (add_tags_to_task task tags).tags =
      some (task.tags.getD [] ++ firstSeen (task.tags.getD []) tags) := by
  refine ⟨?_, ?_, ?_⟩
  · intro tag h
    simp only [add_tags_to_task, Option.getD_some]
    exact mem_addTagLoop_input tags _ tag h
  · intro h
    simp only [add_tags_to_task, Option.getD_some]
    exact nodup_addTagLoop tags _ h
  · simp only [add_tags_to_task]
    rw [addTagLoop_eq_append]

/-- C7 (witness): instantiating the amended claim on a concrete task with
no `tags` key and a repeated input tag. -/
theorem add_tags_spec_witness :
    "urgent" ∈ ((add_tags_to_task baseTask ["urgent", "urgent"]).tags.getD []) ∧
    ((add_tags_to_task baseTask ["urgent", "urgent"]).tags.getD []).Nodup :=
  ⟨(add_tags_spec baseTask ["urgent", "urgent"]).1 "urgent" (by decide),
   (add_tags_spec baseTask ["urgent", "urgent"]).2.1 (by decide)⟩

/-- C8: `add_tags_to_task` is idempotent — applying it a second time with
the same tag list returns the same task, with the same tag sequence in the
same order. -/
theorem add_tags_idempotent (task : Task) (tags : List String) :
    add_tags_to_task (add_tags_to_task task tags) tags = add_tags_to_task task tags := by
  have h : addTagLoop (addTagLoop (task.tags.getD []) tags) tags
      = addTagLoop (task.tags.getD []) tags :=
    addTagLoop_absorbed tags _ fun t ht => mem_addTagLoop_input tags _ t ht
  simp [add_tags_to_task, h]

/-- C6: `filter_tasks_by_priority` returns a subsequence of the input
(original relative order preserved) whose members are exactly the tasks of
the input whose `priority` field equals the requested priority; a task
whose `priority` key is absent never appears in the result. -/
theorem filter_by_priority_spec (tasks : List Task) (p : String) :
    (filter_tasks_by_priority tasks p).Sublist tasks ∧
    (∀ t : Task, t ∈ filter_tasks_by_priority tasks p ↔ t ∈ tasks ∧ t.priority = some p) ∧
    (∀ t : Task, t.priority = none → t ∉ filter_tasks_by_priority tasks p) := by
  refine ⟨List.filter_sublist tasks, fun t => ?_, fun t hn hmem => ?_⟩
  · simp [filter_tasks_by_priority, List.mem_filter]
  · rw [filter_tasks_by_priority, List.mem_filter] at hmem
    rw [hn] at hmem
    simpa using hmem.2

/-- C6 (witness): instantiating the filter characterization on a concrete
three-task collection: the first task matches priority High, the third task
has no `priority` key and never matches. -/
theorem filter_by_priority_witness :
    { baseTask with priority := some "High" } ∈
      filter_tasks_by_priority
        [{ baseTask with priority := some "High" },
         { baseTask with id := 2, priority := some "Medium" },
         { baseTask with id := 3 }] "High" ∧
    { baseTask with id := 3 } ∉
      filter_tasks_by_priority
        [{ baseTask with priority := some "High" },
         { baseTask with id := 2, priority := some "Medium" },
         { baseTask with id := 3 }] "High" :=
  ⟨((filter_by_priority_spec
      [{ baseTask with priority := some "High" },
       { baseTask with id := 2, priority := some "Medium" },
       { baseTask with id := 3 }] "High").2.1 _).mpr ⟨by decide, rfl⟩,
   (filter_by_priority_spec
      [{ baseTask with priority := some "High" },
       { baseTask with id := 2, priority := some "Medium" },
       { baseTask with id := 3 }] "High").2.2 _ rfl⟩

theorem is_overdue_iff (today : PyDate) (t : Task) :
    is_overdue today t = true ↔
      t.completed.getD false = false ∧
      ∃ s d, t.due_date = some s ∧ parseDate s = some d ∧ dateLt d today = true := by
  unfold is_overdue
  cases hc : t.completed.getD false with
  | true => simp [hc]
  | false =>
    cases hd : t.due_date with
    | none => simp [hd]
    | some s =>
      cases hp : parseDate s with
      | none => simp [hd, hp]
      | some d => simp [hd, hp]

/-- C3: a task is in `get_overdue_tasks` exactly when it is in the input
collection, its `completed` value (defaulted to false when absent) is
false, its `due_date` is present and parses as YYYY-MM-DD, and the parsed
date is strictly before the reference date `today`.  Completed tasks and
tasks with absent or malformed `due_date` are excluded. -/
theorem overdue_mem_iff (tasks : List Task) (today : PyDate) (t : Task) :
    t ∈ get_overdue_tasks tasks today ↔
      t ∈ tasks ∧ t.completed.getD false = false ∧
      ∃ s d, t.due_date = some s ∧ parseDate s = some d ∧ dateLt d today = true := by
  rw [get_overdue_tasks, List.mem_filter, is_overdue_iff]

/-- C3 (witness): on a concrete collection, an incomplete past-due task is
in the overdue set while a completed one with the same past due date is
not. -/
theorem overdue_mem_iff_witness :
    { baseTask with due_date := some "2025-04-25" } ∈
      get_overdue_tasks
        [{ baseTask with due_date := some "2025-04-25" },
         { baseTask with id := 2, due_date := some "2025-04-25", completed := some true }]
        ⟨2025, 5, 1⟩ ∧
    { baseTask with id := 2, due_date := some "2025-04-25", completed := some true } ∉
      get_overdue_tasks
        [{ baseTask with due_date := some "2025-04-25" },
         { baseTask with id := 2, due_date := some "2025-04-25", completed := some true }]
        ⟨2025, 5, 1⟩ := by
  constructor
  · exact (overdue_mem_iff _ _ _).mpr
      ⟨by decide, rfl, "2025-04-25", ⟨2025, 4, 25⟩, rfl, by decide, by decide⟩
  · intro hmem
    have h := ((overdue_mem_iff _ _ _).mp hmem).2.1
    simp at h

theorem validDate_of_parseDate {s : String} {dt : PyDate} (h : parseDate s = some dt) :
    validDate dt.year dt.month dt.day = true := by
  unfold parseDate at h
  split at h
  · split at h
    · split at h
      · rename_i hval
        injection h with h'
        subst h'
        exact hval
      · cases h
    all_goals cases h
  · cases h

theorem daysInMonth_ge_28 (y m : Nat) : 28 ≤ daysInMonth y m := by
  unfold daysInMonth
  split
  · split <;> omega
  · split <;> omega

theorem isLeapYear_succ_eq_false {y : Nat} (h : isLeapYear y = true) :
    isLeapYear (y + 1) = false := by
  have h4 : y % 4 = 0 := by
    unfold isLeapYear at h
    simp only [Bool.and_eq_true, beq_iff_eq] at h
    exact h.1
  have hs : (y + 1) % 4 = 1 := by omega
  unfold isLeapYear
  simp [hs]

/-- C5: both `get_next_occurrence_date` and `generate_next_occurrence`
return `none` whenever the `recurrence` key is absent, the `due_date` key
is absent, the `due_date` value fails to parse as YYYY-MM-DD, or the
`recurrence` value is not one of the four valid patterns. -/
theorem next_occurrence_none_cases (task : Task)
    (h : task.recurrence = none ∨ task.due_date = none ∨
      (∃ s, task.due_date = some s ∧ parseDate s = none) ∨
      (∃ r, task.recurrence = some r ∧ r ∉ valid_patterns)) :
    get_next_occurrence_date task = .ok none ∧
    generate_next_occurrence task = .ok none := by
  obtain ⟨i, ti, de, pr, ca, du, co, cr, tg, su, re⟩ := task
  simp only at h
  rcases h with h | h | ⟨s, hs, hp⟩ | ⟨r, hr, hv⟩
  · subst h
    exact ⟨rfl, rfl⟩
  · subst h
    cases re <;> exact ⟨rfl, rfl⟩
  · subst hs
    cases re with
    | none => exact ⟨rfl, rfl⟩
    | some r =>
      have hd : get_next_occurrence_date
          ⟨i, ti, de, pr, ca, some s, co, cr, tg, su, some r⟩ = .ok none := by
        simp [get_next_occurrence_date, hp]
      exact ⟨hd, by simp [generate_next_occurrence, hd]⟩
  · subst hr
    simp only [valid_patterns, List.mem_cons, List.not_mem_nil, or_false, not_or] at hv
    obtain ⟨h1, h2, h3, h4⟩ := hv
    cases du with
    | none => exact ⟨rfl, rfl⟩
    | some s =>
      have hd : get_next_occurrence_date
          ⟨i, ti, de, pr, ca, some s, co, cr, tg, su, some r⟩ = .ok none := by
        cases hp : parseDate s with
        | none => simp [get_next_occurrence_date, hp]
        | some d =>
          simp [get_next_occurrence_date, hp, beq_eq_false_iff_ne, h1, h2, h3, h4]
      exact ⟨hd, by simp [generate_next_occurrence, hd]⟩

/-- C5 (witness): a task without a `recurrence` key, and a task with an
unrecognized pattern, both give `none` from either function. -/
theorem next_occurrence_none_cases_witness :
    (get_next_occurrence_date { baseTask with due_date := some "2025-04-25" } = .ok none ∧
      generate_next_occurrence { baseTask with due_date := some "2025-04-25" } = .ok none) ∧
    (get_next_occurrence_date
        { baseTask with due_date := some "2025-04-25", recurrence := some "hourly" } =
        .ok none ∧
      generate_next_occurrence
        { baseTask with due_date := some "2025-04-25", recurrence := some "hourly" } =
        .ok none) :=
  ⟨next_occurrence_none_cases _ (Or.inl rfl),
   next_occurrence_none_cases _ (Or.inr (Or.inr (Or.inr ⟨"hourly", rfl, by decide⟩)))⟩

theorem isLeapYear_of_feb29 {y : Nat} (h : validDate y 2 29 = true) :
    isLeapYear y = true := by
  simp only [validDate, Bool.and_eq_true, decide_eq_true_eq] at h
  have h29 : 29 ≤ daysInMonth y 2 := h.2
  by_contra hne
  rw [Bool.not_eq_true] at hne
  simp [daysInMonth, hne] at h29

/-- C10: for a task with yearly recurrence whose `due_date` parses to
February 29 (necessarily of a leap year), `get_next_occurrence_date` and
`generate_next_occurrence` return `none`: `date.replace(year = year + 1)`
raises `ValueError` because the following year is not a leap year, and the
handler absorbs the failure into `None` instead of letting it propagate. -/
theorem yearly_feb29_none (task : Task) (s : String) (y : Nat)
    (hr : task.recurrence = some "yearly") (hd : task.due_date = some s)
    (hp : parseDate s = some ⟨y, 2, 29⟩) :
    get_next_occurrence_date task = .ok none ∧
    generate_next_occurrence task = .ok none := by
  have hleap : isLeapYear y = true := isLeapYear_of_feb29 (validDate_of_parseDate hp)
  have hnext : isLeapYear (y + 1) = false := isLeapYear_succ_eq_false hleap
  have hval : validDate (y + 1) 2 29 = false := by
    simp [validDate, daysInMonth, hnext]
  obtain ⟨i, ti, de, pr, ca, du, co, cr, tg, su, re⟩ := task
  simp only at hr hd
  subst hr
  subst hd
  have hdate : get_next_occurrence_date
      ⟨i, ti, de, pr, ca, some s, co, cr, tg, su, some "yearly"⟩ = .ok none := by
    simp [get_next_occurrence_date, hp, hval]
  exact ⟨hdate, by simp [generate_next_occurrence, hdate]⟩

/-- C10 (witness): the concrete leap day 2024-02-29 with yearly
recurrence. -/
theorem yearly_feb29_none_witness :
    get_next_occurrence_date
        { baseTask with recurrence := some "yearly", due_date := some "2024-02-29" } =
      .ok none ∧
    generate_next_occurrence
        { baseTask with recurrence := some "yearly", due_date := some "2024-02-29" } =
      .ok none :=
  yearly_feb29_none _ "2024-02-29" 2024 rfl rfl (by decide)

/-- A monthly task due in December of `MAXYEAR = 9999`. -/
def decMaxTask : Task :=
  { baseTask with recurrence := some "monthly", due_date := some "9999-12-31" }

/-- C4 (counterexample): the claim promises a next-month date for every
monthly task whose `due_date` parses, but on 9999-12-31 the computed
`year = 10000` makes `date.replace` raise a (caught) `ValueError`, so the
function returns `none` instead of a January date. -/
theorem monthly_clamp_cex :
    parseDate "9999-12-31" = some ⟨9999, 12, 31⟩ ∧
    get_next_occurrence_date decMaxTask = .ok none :=
  ⟨by decide, by decide⟩

/-- C4 (amended): for a monthly task whose `due_date` parses as
YYYY-MM-DD, except in December 9999 (where the year-range check of
`date.replace` fails and `none` is returned), the next occurrence date is
in the next calendar month — January of the following year when the due
date is in December — with day `min(original day, 28)`; in particular the
produced day never exceeds 28. -/
theorem monthly_clamp (task : Task) (ds : String) (dt : PyDate)
    (hr : task.recurrence = some "monthly") (hd : task.due_date = some ds)
    (hp : parseDate ds = some dt) (hy : ¬(dt.year = 9999 ∧ dt.month = 12)) :
    get_next_occurrence_date task =
      .ok (some (fmtDate ⟨dt.year + (if dt.month == 12 then 1 else 0),
                          dt.month % 12 + 1, min dt.day 28⟩)) ∧
    min dt.day 28 ≤ 28 := by
  obtain ⟨y, m, d⟩ := dt
  have hv := validDate_of_parseDate hp
  simp only [validDate, Bool.and_eq_true, decide_eq_true_eq] at hv
  obtain ⟨⟨⟨⟨⟨hy1, hy2⟩, hm1⟩, hm2⟩, hd1⟩, _⟩ := hv
  have hval : validDate (y + if m == 12 then 1 else 0) (m % 12 + 1) (min d 28) = true := by
    simp only [validDate, Bool.and_eq_true, decide_eq_true_eq]
    refine ⟨⟨⟨⟨⟨?_, ?_⟩, ?_⟩, ?_⟩, ?_⟩, ?_⟩
    · split <;> omega
    · simp only at hy
      by_cases hm : m = 12
      · have : y ≠ 9999 := fun hyy => hy ⟨hyy, hm⟩
        simp [hm]
        omega
      · have : (m == 12) = false := by simp [hm]
        rw [this]
        simpa using hy2
    · omega
    · omega
    · omega
    · exact le_trans (Nat.min_le_right d 28) (daysInMonth_ge_28 _ _)
  obtain ⟨i, ti, de, pr, ca, du, co, cr, tg, su, re⟩ := task
  simp only at hr hd
  subst hr
  subst hd
  refine ⟨?_, Nat.min_le_right d 28⟩
  have hval' : validDate (y + if m = 12 then 1 else 0) (m % 12 + 1) (min d 28) = true := by
    simpa using hval
  simp only [get_next_occurrence_date, hp]
  simp [hval']

/-- C4 (witness): a monthly task due 2023-01-31 recurs on 2023-02-28, the
day clamped to 28. -/
theorem monthly_clamp_witness :
    get_next_occurrence_date
        { baseTask with recurrence := some "monthly", due_date := some "2023-01-31" } =
      .ok (some "2023-02-28") := by
  have h := monthly_clamp
    { baseTask with recurrence := some "monthly", due_date := some "2023-01-31" }
    "2023-01-31" ⟨2023, 1, 31⟩ rfl rfl (by decide) (by decide)
  exact h.1.trans (by decide)

/-- A task with yearly recurrence due on a leap day: its pattern is valid
and its date parses, yet no next occurrence exists. -/
def febYearlyTask : Task :=
  { baseTask with recurrence := some "yearly", due_date := some "2024-02-29" }

/-- C2 (counterexample): the claim promises a next-occurrence task for
every task whose recurrence pattern is valid and whose `due_date` parses,
but a yearly task due on leap day 2024-02-29 satisfies both and still gets
`none` from `generate_next_occurrence` (the date computation fails). -/
theorem generate_valid_input_none_cex :
    febYearlyTask.recurrence = some "yearly" ∧
    ("yearly" : String) ∈ valid_patterns ∧
    parseDate "2024-02-29" = some ⟨2024, 2, 29⟩ ∧
    generate_next_occurrence febYearlyTask = .ok none :=
  ⟨rfl, by decide, by decide, by decide⟩

/-- C2 (amended): whenever `get_next_occurrence_date` succeeds on a task —
which it does for the valid patterns with a parseable `due_date`, except
where the date computation itself fails — `generate_next_occurrence`
returns the input task with only these changes: `id` becomes the fresh id
generated from the single-element list `[task]`, which is the input's id
plus one; `due_date` becomes the computed next date; `completed` becomes
false; and every subtask, when subtasks exist, has `completed` set to
false. -/
theorem generate_spec (task : Task) (s : String)
    (h : get_next_occurrence_date task = .ok (some s)) :
    generate_next_occurrence task =
      .ok (some { task with
        id := task.id + 1,
        due_date := some s,
        completed := some false,
        subtasks := task.subtasks.map (List.map resetSubtask) }) ∧
    generate_unique_id [task] = task.id + 1 := by
  obtain ⟨i, ti, de, pr, ca, du, co, cr, tg, su, re⟩ := task
  refine ⟨?_, by simp [generate_unique_id]⟩
  cases re with
  | none => simp [get_next_occurrence_date] at h
  | some r =>
    cases du with
    | none => simp [get_next_occurrence_date] at h
    | some ds => simp [generate_next_occurrence, h, generate_unique_id]

/-- C2 (witness): a completed daily task due 2025-04-25 with one completed
subtask spawns the expected 2025-04-26 occurrence with id 2 and all
completion flags cleared. -/
theorem generate_spec_witness :
    generate_next_occurrence
        { baseTask with
          recurrence := some "daily", due_date := some "2025-04-25",
          completed := some true, subtasks := some [⟨some 1, some "Subtask", some true⟩] } =
      .ok (some { baseTask with
                  id := 2, recurrence := some "daily",
                  due_date := some "2025-04-26", completed := some false,
                  subtasks := some [⟨some 1, some "Subtask", some false⟩] }) := by
  have h := (generate_spec
    { baseTask with
      recurrence := some "daily", due_date := some "2025-04-25",
      completed := some true, subtasks := some [⟨some 1, some "Subtask", some true⟩] }
    "2025-04-26" (by decide)).1
  exact h.trans (by decide)

/-- A completed daily recurring task carrying one completed subtask. -/
def recTaskWithSubs : Task :=
  { baseTask with
    recurrence := some "daily", due_date := some "2025-04-25",
    completed := some true, subtasks := some [⟨some 1, some "Subtask", some true⟩] }

/-- C1 (code bug): after `generate_next_occurrence` runs, the input task
keeps its `id`, `due_date` and `completed` values, but — because
`task.copy()` is a shallow copy sharing the subtask dictionaries — the
loop that resets the new occurrence's subtasks also flips the ORIGINAL
task's subtask `completed` flag from true to false, contrary to the
function's own contract of returning a new task and leaving the original
retained as completed. -/
theorem original_subtasks_mutated :
    recTaskWithSubs.subtasks = some [⟨some 1, some "Subtask", some true⟩] ∧
    (generate_next_occurrence_post recTaskWithSubs).subtasks =
      some [⟨some 1, some "Subtask", some false⟩] ∧
    (generate_next_occurrence_post recTaskWithSubs).id = recTaskWithSubs.id ∧
    (generate_next_occurrence_post recTaskWithSubs).due_date = recTaskWithSubs.due_date ∧
    (generate_next_occurrence_post recTaskWithSubs).completed = recTaskWithSubs.completed :=
  ⟨rfl, by decide, by decide, by decide, by decide⟩

/-- C9 (counterexample): the claim says any content that is not a sequence
of task records yields an empty sequence, but `load_tasks` only guards
against `json.JSONDecodeError`: a document holding valid JSON of the wrong
shape — here a bare JSON number — is returned unchanged. -/
theorem load_nonlist_cex :
    load_tasks (.parsed (.otherJson "the JSON number 42")) =
      .otherJson "the JSON number 42" ∧
    JDoc.otherJson "the JSON number 42" ≠ .tasksList [] :=
  ⟨rfl, by decide⟩

/-- C9 (amended): `load_tasks` returns an empty sequence, without raising,
when the source document is missing, and returns an empty sequence (with a
logged warning) whenever the content is not parseable as JSON; content
that parses as JSON but is not a sequence of task records is returned
unchanged. -/
theorem load_missing_or_malformed (raw : String) :
    load_tasks .missing = .tasksList [] ∧
    load_tasks (.malformed raw) = .tasksList [] :=
  ⟨rfl, rfl⟩

/-- C9 (witness): concrete malformed content. -/
theorem load_missing_or_malformed_witness :
    load_tasks (.malformed "not json at all") = .tasksList [] :=
  (load_missing_or_malformed "not json at all").2

end TaskEngine
